import Mathlib

/-!
Verification of the background posting-process script of the privly-chrome
extension (`javascripts/background_scripts/posting_process.js`).

The script is single-threaded and event-driven; every handler is embedded as a
pure function from its arguments and the current background-page state to the
updated state together with the list of externally visible effects it issues,
in source order (window creation, tab messages, tab removals, notifications,
message-channel responses).
-/

namespace PrivlyPosting

/-- A browser tab as the handlers observe it: its numeric id and its URL.
`postingResultTab` stores a whole tab object (the source `sourceTab`), and
`sender.tab` carries both fields. -/
structure Tab where
  id : Nat
  url : String
  deriving DecidableEq, Repr

/-- Messages sent to a tab with `chrome.tabs.sendMessage`. The script sends
`\x7bpendingPost: b\x7d` and `\x7bprivlyUrl: data, pendingPost: false\x7d`. -/
inductive TabMessage where
  | pendingPost (pending : Bool)
  | privlyUrl (data : Option String) (pending : Bool)
  deriving DecidableEq, Repr

/-- Replies passed to a `sendResponse` callback. The script replies
`\x7bsecret, handler: "messageSecret"\x7d` and
`\x7bsecret, initialContent, handler: "initialContent"\x7d`. -/
inductive Response where
  | messageSecretReply (secret : Option String)
  | initialContentReply (secret : Option String) (initialContent : String)
  deriving DecidableEq, Repr

/-- Externally visible effects a handler can issue, in source order. -/
inductive Effect where
  | createWindow (url : String) (focused : Bool) (top left : Int) (kind : String)
  | updateTab (tabId : Nat) (selected : Bool)
  | sendTabMessage (tabId : Nat) (message : TabMessage)
  | removeTab (tabId : Nat)
  | showNotification (iconUrl title body : String)
  | sendResponse (response : Response)
  deriving DecidableEq, Repr

/-- The mutable background-page state: the module-level variables
`messageSecret`, `postingResultTab`, `postingApplicationTabId`,
`postingApplicationStartingValue`, together with the persisted
`localStorage["posting_content_server_url"]` entry.  `none` models the
JavaScript `undefined`/`null` values. -/
structure BGState where
  messageSecret : Option String
  postingResultTab : Option Tab
  postingApplicationTabId : Option Nat
  postingApplicationStartingValue : String
  postingContentServerUrl : Option String
  deriving DecidableEq, Repr

/-- An inbound runtime message: a JSON-like object whose fields may be absent. -/
structure Request where
  handler : Option String
  data : Option String
  ask : Option String
  deriving DecidableEq, Repr

/-- The sender information Chrome attaches to a runtime message. -/
structure Sender where
  tab : Tab
  deriving DecidableEq, Repr

/-- The `OnClickData` info argument of a context-menu click; the script only
reads `info.selectionText`, absent when no text was selected. -/
structure Info where
  selectionText : Option String
  deriving DecidableEq, Repr

/-- The scheme prefix checked by `sender.tab.url.indexOf("chrome-extension://") === 0`. -/
def extensionScheme : String := "chrome-extension://"

/-- `s.indexOf(p) === 0` in JavaScript: `p` occurs at position 0 of `s`,
i.e. `p` is a prefix of `s` (character-wise). -/
def strStartsWith (s p : String) : Bool := List.isPrefixOf p.data s.data

/-- Modelled from the Chrome platform API: `chrome.extension.getURL(path)`
resolves `path` inside the extension's own `chrome-extension://<id>/`
namespace; the id is fixed per install, so it is one constant here. -/
def chromeExtensionBase : String := "chrome-extension://extension-install-id/"

/-- Modelled from the Chrome platform API: `chrome.extension.getURL`. -/
def getURL (path : String) : String := chromeExtensionBase ++ path

/-- The fallback written when `localStorage["posting_content_server_url"]` is unset. -/
def defaultPostingDomain : String := "https://privlyalpha.org"

/-- The fixed arguments of `webkitNotifications.createNotification` in
`postingHandler`'s busy branch. -/
def warningIcon : String := "../../images/logo_48.png"

def warningTitle : String := "Privly Warning"

def warningBody : String :=
  "Close the posting window or finish the post before starting a new post."

/-- `postingHandler(info, sourceTab, postingApplicationName)`.

`newTabId` stands for the id Chrome assigns to the single tab of the window
created by `chrome.windows.create`; the creation callback (which records the
pairing and notifies the host tab) is run to completion here, matching the
script's single event of interest. -/
def postingHandler (info : Info) (sourceTab : Tab) (postingApplicationName : String)
    (newTabId : Nat) (s : BGState) : BGState × List Effect :=
  if s.postingApplicationTabId = none then
    let s1 : BGState :=
      match s.postingContentServerUrl with
      | some _ => s
      | none => { s with postingContentServerUrl := some defaultPostingDomain }
    let postingApplicationUrl : String :=
      getURL ("privly-applications/" ++ postingApplicationName ++ "/new.html")
    let s2 : BGState :=
      match info.selectionText with
      | some t => { s1 with postingApplicationStartingValue := t }
      | none => { s1 with postingApplicationStartingValue := "" }
    let s3 : BGState :=
      { s2 with postingApplicationTabId := some newTabId,
                postingResultTab := some sourceTab }
    (s3, [Effect.createWindow postingApplicationUrl true 0 0 ("normal"),
          Effect.sendTabMessage sourceTab.id (TabMessage.pendingPost true)])
  else
    (s, [Effect.showNotification warningIcon warningTitle warningBody])

/-- `receiveNewPrivlyUrl(request, sender, sendResponse)`. -/
def receiveNewPrivlyUrl (request : Request) (sender : Sender) (s : BGState) :
    BGState × List Effect :=
  match s.postingResultTab with
  | some resultTab =>
      if request.handler = some ("privlyUrl") then
        ({ s with postingApplicationTabId := none, postingResultTab := none },
         [Effect.updateTab resultTab.id true,
          Effect.sendTabMessage resultTab.id (TabMessage.privlyUrl request.data false),
          Effect.removeTab sender.tab.id])
      else (s, [])
  | none => (s, [])

/-- `initializeMessagePathway(request, sender, sendResponse)`. -/
def initializeMessagePathway (request : Request) (sender : Sender) (s : BGState) :
    BGState × List Effect :=
  if request.handler = some ("messageSecret") ∧
      strStartsWith sender.tab.url extensionScheme = true then
    ({ s with messageSecret := request.data },
     [Effect.sendResponse (Response.messageSecretReply request.data)])
  else if request.handler = some ("initialContent") ∧
      some sender.tab.id = s.postingApplicationTabId then
    (s, [Effect.sendResponse
          (Response.initialContentReply s.messageSecret s.postingApplicationStartingValue)])
  else (s, [])

/-- `sendInitialContent(request, sender, sendResponse)`. -/
def sendInitialContent (request : Request) (sender : Sender) (s : BGState) :
    BGState × List Effect :=
  if request.handler = some ("initialContent") ∧
      some sender.tab.id = s.postingApplicationTabId then
    (s, [Effect.sendResponse
          (Response.initialContentReply s.messageSecret s.postingApplicationStartingValue)])
  else if request.handler = some ("initialContent") then
    (s, [Effect.sendResponse (Response.initialContentReply s.messageSecret (""))])
  else (s, [])

/-- `tabRemoved(tabId, removeInfo)`; `removeInfo` is unused by the script. -/
def tabRemoved (tabId : Nat) (s : BGState) : BGState × List Effect :=
  match s.postingResultTab, s.postingApplicationTabId with
  | some resultTab, some appTabId =>
      if tabId = appTabId then
        ({ s with postingResultTab := none, postingApplicationTabId := none,
                  postingApplicationStartingValue := "" },
         [Effect.sendTabMessage resultTab.id (TabMessage.pendingPost false)])
      else if tabId = resultTab.id then
        ({ s with postingResultTab := none, postingApplicationTabId := none,
                  postingApplicationStartingValue := "" },
         [Effect.removeTab appTabId])
      else (s, [])
  | _, _ => (s, [])

/-- The anonymous `chrome.runtime.onMessage` listener: on `\x7bask:"newPost"\x7d`
it calls `postingHandler(0, sender.tab, "ZeroBin")`.  The number `0` has no
`selectionText` property, so the info argument carries no selection. -/
def runtimeOnMessageListener (request : Request) (sender : Sender) (newTabId : Nat)
    (s : BGState) : BGState × List Effect :=
  if request.ask = some ("newPost") then
    postingHandler { selectionText := none } sender.tab ("ZeroBin") newTabId s
  else (s, [])

/-- One context-menu trigger event: the click info, the clicked tab, the chosen
posting-application name, and the tab id Chrome assigns to the new window. -/
structure Trigger where
  info : Info
  sourceTab : Tab
  appName : String
  newTabId : Nat

/-- The state reached after a sequence of trigger events, effects discarded. -/
def runTriggers (ts : List Trigger) (s : BGState) : BGState :=
  ts.foldl (fun st t => (postingHandler t.info t.sourceTab t.appName t.newTabId st).1) s

/-- The state at script load: all session variables unset, starting value empty,
no persisted configuration. -/
def idleState : BGState :=
  { messageSecret := none, postingResultTab := none, postingApplicationTabId := none,
    postingApplicationStartingValue := "", postingContentServerUrl := none }

/-- A concrete host tab used by witnesses. -/
def hostTab : Tab := { id := 7, url := "https://host.example/page" }

/-- A concrete mid-session state: host tab 7 paired with app tab 9, pending
draft text captured. -/
def pendingState : BGState :=
  { messageSecret := some ("s3cr3t"), postingResultTab := some hostTab,
    postingApplicationTabId := some 9, postingApplicationStartingValue := "hello",
    postingContentServerUrl := some defaultPostingDomain }

/-- A sender inside the extension's own namespace, tab id 9 (the app tab). -/
def appSender : Sender :=
  { tab := { id := 9,
             url := "chrome-extension://extension-install-id/privly-applications/ZeroBin/new.html" } }

/-- A `messageSecret` registration request carrying token `tok`. -/
def secretReq (tok : String) : Request :=
  { handler := some ("messageSecret"), data := some tok, ask := none }

/-- An `initialContent` request. -/
def initialContentReq : Request :=
  { handler := some ("initialContent"), data := none, ask := none }

/-- A `privlyUrl` result-delivery request. -/
def privlyUrlReq : Request :=
  { handler := some ("privlyUrl"), data := some ("https://x/p/abc"), ask := none }

/-- C1: whenever a posting-application surface is bound (the Session is
PENDING), every trigger event handled by `postingHandler` leaves the whole
background state — in particular `postingResultTab` and
`postingApplicationTabId` — unchanged and issues only the non-fatal warning
notification; consequently any sequence of triggers leaves the state fixed. -/
theorem C1_pending_trigger_no_state_change (s : BGState)
    (h : s.postingApplicationTabId ≠ none) :
    (∀ t : Trigger,
      postingHandler t.info t.sourceTab t.appName t.newTabId s =
        (s, [Effect.showNotification warningIcon warningTitle warningBody])) ∧
    (∀ ts : List Trigger, runTriggers ts s = s) := by
  have hstep : ∀ t : Trigger,
      postingHandler t.info t.sourceTab t.appName t.newTabId s =
        (s, [Effect.showNotification warningIcon warningTitle warningBody]) := by
    intro t
    unfold postingHandler
    rw [if_neg h]
  refine ⟨hstep, ?_⟩
  intro ts
  induction ts with
  | nil => rfl
  | cons t ts ih =>
      show runTriggers ts ((postingHandler t.info t.sourceTab t.appName t.newTabId s).1) = s
      rw [hstep t]
      exact ih

theorem C1_witness :
    runTriggers [{ info := { selectionText := some ("x") },
                   sourceTab := { id := 3, url := "https://h.example" },
                   appName := "PlainPost", newTabId := 5 }] pendingState = pendingState :=
  (C1_pending_trigger_no_state_change pendingState (by decide)).2 _

/-- C4 counterexample: two states that differ only in the configured
`posting_content_server_url` produce identical effects — the created posting
surface's target location is the extension-internal URL and is not built from
the configured base URL, contrary to the claim. -/
theorem C4_counterexample :
    (postingHandler { selectionText := none } hostTab ("ZeroBin") 9
        { idleState with postingContentServerUrl := some ("https://serverA.example") }).2 =
      (postingHandler { selectionText := none } hostTab ("ZeroBin") 9
        { idleState with postingContentServerUrl := some ("https://serverB.example") }).2 ∧
    ("https://serverA.example" : String) ≠ ("https://serverB.example") ∧
    (postingHandler { selectionText := none } hostTab ("ZeroBin") 9
        { idleState with postingContentServerUrl := some ("https://serverA.example") }).2.head? =
      some (Effect.createWindow
        ("chrome-extension://extension-install-id/privly-applications/ZeroBin/new.html")
        true 0 0 ("normal")) := by
  refine ⟨rfl, by decide, rfl⟩

/-- C4 amended: when no posting surface is bound, `postingHandler` opens the
posting surface at the extension's own packaged URL
`chrome.extension.getURL("privly-applications/" ++ name ++ "/new.html")`; the
configured `posting_content_server_url` is read, and initialized to the fixed
default when unset, but does not enter the target location. -/
theorem C4_target_is_extension_url (info : Info) (sourceTab : Tab) (name : String)
    (newTabId : Nat) (s : BGState) (h : s.postingApplicationTabId = none) :
    (postingHandler info sourceTab name newTabId s).2.head? =
      some (Effect.createWindow
        (getURL ("privly-applications/" ++ name ++ "/new.html")) true 0 0 ("normal")) ∧
    (postingHandler info sourceTab name newTabId s).1.postingContentServerUrl =
      some (s.postingContentServerUrl.getD defaultPostingDomain) := by
  unfold postingHandler
  rw [if_pos h]
  refine ⟨rfl, ?_⟩
  cases hc : s.postingContentServerUrl <;>
    cases hs : info.selectionText <;> simp [hc, hs]

theorem C4_witness :
    (postingHandler { selectionText := none } hostTab ("Index") 4 idleState).1.postingContentServerUrl =
      some (defaultPostingDomain) :=
  (C4_target_is_extension_url { selectionText := none } hostTab ("Index") 4 idleState rfl).2

/-- C9: a trigger in the IDLE state with source tab 7, selected text "hello"
and application "ZeroBin" opens the posting surface and leaves the session with
`postingResultTab` identifying tab 7, `postingApplicationTabId` set to the new
surface's tab id, and starting value "hello"; tab 7 is sent
`\x7bpendingPost: true\x7d`. -/
theorem C9_scenario_A (s : BGState) (n : Nat)
    (h : s.postingApplicationTabId = none) :
    (postingHandler { selectionText := some ("hello") } hostTab ("ZeroBin") n s).1.postingResultTab =
        some hostTab ∧
    hostTab.id = 7 ∧
    (postingHandler { selectionText := some ("hello") } hostTab ("ZeroBin") n s).1.postingApplicationTabId =
        some n ∧
    (postingHandler { selectionText := some ("hello") } hostTab ("ZeroBin") n s).1.postingApplicationStartingValue =
        ("hello") ∧
    (postingHandler { selectionText := some ("hello") } hostTab ("ZeroBin") n s).2 =
      [Effect.createWindow (getURL ("privly-applications/ZeroBin/new.html")) true 0 0 ("normal"),
       Effect.sendTabMessage 7 (TabMessage.pendingPost true)] := by
  unfold postingHandler
  rw [if_pos h]
  cases hc : s.postingContentServerUrl <;>
    simp [hc, hostTab, getURL]

theorem C9_witness :
    (postingHandler { selectionText := some ("hello") } hostTab ("ZeroBin") 42 idleState).1.postingApplicationStartingValue =
      ("hello") :=
  (C9_scenario_A idleState 42 rfl).2.2.2.1

/-- C10: a `\x7bask:"newPost"\x7d` runtime message, handled while no posting
surface is bound, starts the session with empty starting content and opens the
"ZeroBin" posting application, because the info argument (the number 0)
carries no `selectionText`. -/
theorem C10_newPost_defaults (r : Request) (sd : Sender) (n : Nat) (s : BGState)
    (ha : r.ask = some ("newPost")) (h : s.postingApplicationTabId = none) :
    (runtimeOnMessageListener r sd n s).1.postingApplicationStartingValue = ("") ∧
    (runtimeOnMessageListener r sd n s).2.head? =
      some (Effect.createWindow
        (getURL ("privly-applications/ZeroBin/new.html")) true 0 0 ("normal")) := by
  unfold runtimeOnMessageListener
  rw [if_pos ha]
  unfold postingHandler
  rw [if_pos h]
  cases hc : s.postingContentServerUrl <;> simp [hc]

theorem C10_witness :
    (runtimeOnMessageListener { handler := none, data := none, ask := some ("newPost") }
        appSender 13 idleState).1.postingApplicationStartingValue = ("") :=
  (C10_newPost_defaults { handler := none, data := none, ask := some ("newPost") }
    appSender 13 idleState rfl rfl).1

/-- C2 counterexample: registering token "tokenA" and then token "tokenB" from
an extension-namespace sender leaves "tokenB" as the effective secret, and the
second reply echoes "tokenB" — the handler overwrites rather than keeping the
first token, contrary to the claim of idempotence. -/
theorem C2_counterexample :
    ((initializeMessagePathway (secretReq ("tokenB")) appSender
        (initializeMessagePathway (secretReq ("tokenA")) appSender idleState).1).1).messageSecret =
      some ("tokenB") ∧
    (initializeMessagePathway (secretReq ("tokenB")) appSender
        (initializeMessagePathway (secretReq ("tokenA")) appSender idleState).1).2 =
      [Effect.sendResponse (Response.messageSecretReply (some ("tokenB")))] ∧
    (some ("tokenB") : Option String) ≠ some ("tokenA") := by
  refine ⟨by decide, by decide, by decide⟩

/-- C2 amended: the secret-registration handler is not idempotent — for any
extension-namespace sender, each accepted `messageSecret` request overwrites
the stored secret with the request's token and echoes that new token, so after
two registrations with different tokens the second token is the effective
secret. -/
theorem C2_secret_overwritten (tok1 tok2 : String) (sd : Sender) (s : BGState)
    (h : strStartsWith sd.tab.url extensionScheme = true) :
    initializeMessagePathway (secretReq tok2)
        sd (initializeMessagePathway (secretReq tok1) sd s).1 =
      ({ s with messageSecret := some tok2 },
       [Effect.sendResponse (Response.messageSecretReply (some tok2))]) := by
  unfold initializeMessagePathway secretReq
  rw [if_pos ⟨rfl, h⟩, if_pos ⟨rfl, h⟩]

theorem C2_witness :
    initializeMessagePathway (secretReq ("b"))
        appSender (initializeMessagePathway (secretReq ("a")) appSender idleState).1 =
      ({ idleState with messageSecret := some ("b") },
       [Effect.sendResponse (Response.messageSecretReply (some ("b")))]) :=
  C2_secret_overwritten ("a") ("b") appSender idleState (by decide)

/-- C3 counterexample: relaying a result from `pendingState` (whose pending
draft is "hello") leaves `postingApplicationStartingValue` equal to "hello" —
`receiveNewPrivlyUrl` does not clear the starting value, contrary to the claim
that all three session fields are cleared. -/
theorem C3_counterexample :
    (receiveNewPrivlyUrl privlyUrlReq appSender pendingState).1.postingApplicationStartingValue =
      ("hello") ∧
    ("hello" : String) ≠ ("") := by
  refine ⟨rfl, by decide⟩

/-- C3 amended: on successful relay of a result (a `privlyUrl` message handled
while a host tab is bound), `receiveNewPrivlyUrl` clears `postingResultTab` and
`postingApplicationTabId` but leaves `postingApplicationStartingValue` (and the
stored secret) unchanged. -/
theorem C3_relay_partial_reset (r : Request) (sd : Sender) (s : BGState) (tb : Tab)
    (hr : s.postingResultTab = some tb) (hh : r.handler = some ("privlyUrl")) :
    (receiveNewPrivlyUrl r sd s).1.postingResultTab = none ∧
    (receiveNewPrivlyUrl r sd s).1.postingApplicationTabId = none ∧
    (receiveNewPrivlyUrl r sd s).1.postingApplicationStartingValue =
      s.postingApplicationStartingValue ∧
    (receiveNewPrivlyUrl r sd s).1.messageSecret = s.messageSecret := by
  unfold receiveNewPrivlyUrl
  rw [hr]
  simp [hh]

theorem C3_witness :
    (receiveNewPrivlyUrl privlyUrlReq appSender pendingState).1.postingResultTab = none :=
  (C3_relay_partial_reset privlyUrlReq appSender pendingState hostTab rfl rfl).1

/-- C5: whenever both session identifiers are bound, removal of the bound app
tab clears all three session fields and sends the host tab
`\x7bpendingPost: false\x7d`, and removal of the bound host tab (when distinct
from the app tab) clears all three fields and requests closure of the app tab. -/
theorem C5_closure_symmetry (s : BGState) (tb : Tab) (appTabId : Nat)
    (hr : s.postingResultTab = some tb) (ha : s.postingApplicationTabId = some appTabId) :
    tabRemoved appTabId s =
      ({ s with postingResultTab := none, postingApplicationTabId := none,
                postingApplicationStartingValue := "" },
       [Effect.sendTabMessage tb.id (TabMessage.pendingPost false)]) ∧
    (tb.id ≠ appTabId →
      tabRemoved tb.id s =
        ({ s with postingResultTab := none, postingApplicationTabId := none,
                  postingApplicationStartingValue := "" },
         [Effect.removeTab appTabId])) := by
  constructor
  · unfold tabRemoved
    rw [hr, ha]
    simp
  · intro hne
    unfold tabRemoved
    rw [hr, ha]
    simp [hne]

theorem C5_witness :
    tabRemoved 9 pendingState =
      ({ pendingState with postingResultTab := none, postingApplicationTabId := none,
                           postingApplicationStartingValue := "" },
       [Effect.sendTabMessage 7 (TabMessage.pendingPost false)]) ∧
    tabRemoved 7 pendingState =
      ({ pendingState with postingResultTab := none, postingApplicationTabId := none,
                           postingApplicationStartingValue := "" },
       [Effect.removeTab 9]) :=
  ⟨(C5_closure_symmetry pendingState hostTab 9 rfl rfl).1,
   (C5_closure_symmetry pendingState hostTab 9 rfl rfl).2 (by decide)⟩

/-- C6: an `initialContent` request whose sender tab id differs from the bound
`postingApplicationTabId` is answered by `sendInitialContent` with
`initialContent: ""` — the reply is the same for every value of the pending
draft, so it never depends on or reveals `postingApplicationStartingValue`. -/
theorem C6_content_confidentiality (r : Request) (sd : Sender) (s : BGState)
    (hh : r.handler = some ("initialContent"))
    (hid : some sd.tab.id ≠ s.postingApplicationTabId) :
    sendInitialContent r sd s =
      (s, [Effect.sendResponse (Response.initialContentReply s.messageSecret (""))]) ∧
    (∀ v : String,
      (sendInitialContent r sd { s with postingApplicationStartingValue := v }).2 =
        [Effect.sendResponse (Response.initialContentReply s.messageSecret (""))]) := by
  have hmain : ∀ v : String,
      sendInitialContent r sd { s with postingApplicationStartingValue := v } =
        ({ s with postingApplicationStartingValue := v },
         [Effect.sendResponse (Response.initialContentReply s.messageSecret (""))]) := by
    intro v
    unfold sendInitialContent
    rw [if_neg (fun hcon => hid hcon.2), if_pos hh]
  constructor
  · have := hmain s.postingApplicationStartingValue
    simpa using this
  · intro v
    rw [hmain v]

theorem C6_witness :
    sendInitialContent initialContentReq
        { tab := { id := 11, url := "https://other.example" } } pendingState =
      (pendingState,
       [Effect.sendResponse (Response.initialContentReply (some ("s3cr3t")) (""))]) :=
  (C6_content_confidentiality initialContentReq
    { tab := { id := 11, url := "https://other.example" } } pendingState rfl (by decide)).1

/-- C7: a `privlyUrl` message received while no host tab is bound is ignored —
`receiveNewPrivlyUrl` issues no effect (no tab update, no message, no tab
removal) and leaves the state unchanged. -/
theorem C7_no_host_bound_ignored (r : Request) (sd : Sender) (s : BGState)
    (hh : r.handler = some ("privlyUrl")) (h : s.postingResultTab = none) :
    receiveNewPrivlyUrl r sd s = (s, []) := by
  unfold receiveNewPrivlyUrl
  rw [h]

theorem C7_witness :
    receiveNewPrivlyUrl privlyUrlReq appSender idleState = (idleState, []) :=
  C7_no_host_bound_ignored privlyUrlReq appSender idleState rfl rfl

/-- C8: a `messageSecret` request from a sender whose tab URL does not start
with `chrome-extension://` is silently ignored by `initializeMessagePathway`:
the stored secret is unchanged and no reply is sent. -/
theorem C8_foreign_secret_ignored (r : Request) (sd : Sender) (s : BGState)
    (hh : r.handler = some ("messageSecret"))
    (hu : strStartsWith sd.tab.url extensionScheme = false) :
    initializeMessagePathway r sd s = (s, []) := by
  have h1 : ¬ (r.handler = some ("messageSecret") ∧
      strStartsWith sd.tab.url extensionScheme = true) := by
    intro hcon
    rw [hcon.2] at hu
    exact Bool.noConfusion hu
  have h2 : ¬ (r.handler = some ("initialContent") ∧
      some sd.tab.id = s.postingApplicationTabId) := by
    intro hcon
    have hne := hh.symm.trans hcon.1
    have hstr : ("messageSecret" : String) = ("initialContent") := Option.some.inj hne
    exact absurd hstr (by decide)
  unfold initializeMessagePathway
  rw [if_neg h1, if_neg h2]

theorem C8_witness :
    initializeMessagePathway (secretReq ("evil"))
        { tab := { id := 11, url := "https://attacker.example" } } pendingState =
      (pendingState, []) :=
  C8_foreign_secret_ignored (secretReq ("evil"))
    { tab := { id := 11, url := "https://attacker.example" } } pendingState rfl (by decide)

end PrivlyPosting
